import Mathlib

/-!
Shallow embedding of the gitops-mcp tool layer
(src/kmcp-server/src/gitops_mcp/tools/{flux,cluster,policy,apps}.py).

Kubernetes objects are modelled as records whose optional fields mirror the
dictionary lookups performed by the source (`obj.get("spec", {}).get("suspend",
False)` becomes an `Option` field read with `getD`).  Cluster fetches that the
source wraps in `try`/`except` are modelled as `Except String` inputs: an
`.error` value stands for the exception the API client would raise.  A Python
function whose body can raise an exception that is *not* caught inside the
function is embedded with result type `Except String String`, where `.error`
models the uncaught exception escaping to the caller and `.ok` a normal string
return.

String primitives used by the source (`str.lower`, slicing, `in`, `int(...)`,
`str.title`, lexicographic comparison, stable sorting) are defined here by
structural recursion over `List Char` so that all definitions compute by
kernel reduction.  They model CPython semantics for the ASCII inputs that
occur in this code base.
-/

namespace PyStr

/-- Model of Python `str.lower()` (ASCII). -/
def lower (s : String) : String := String.mk (s.data.map Char.toLower)

/-- Model of Python string slicing `s[:n]` (by characters). -/
def take (s : String) (n : Nat) : String := String.mk (s.data.take n)

/-- `leadsWith p l` is true when `p` occurs at the start of `l`. -/
def leadsWith : List Char → List Char → Bool
  | [], _ => true
  | _ :: _, [] => false
  | p :: ps, c :: cs => p == c && leadsWith ps cs

/-- `hasSub pat l` is true when `pat` occurs contiguously inside `l`. -/
def hasSub (pat : List Char) : List Char → Bool
  | [] => pat.isEmpty
  | c :: rest => leadsWith pat (c :: rest) || hasSub pat rest

/-- Model of the Python substring test `pat in s`. -/
def containsStr (s pat : String) : Bool := hasSub pat.data s.data

/-- Whitespace stripped from both ends, as Python `int()` strips the
argument before parsing. -/
def stripEnds (l : List Char) : List Char :=
  ((l.dropWhile Char.isWhitespace).reverse.dropWhile Char.isWhitespace).reverse

/-- Continuation of a digit run already holding value `acc`: further
digits, with single underscores allowed only between two digits (the
CPython grammar `digit (["_"] digit)*`); `none` on anything else. -/
def digitsU : List Char → Nat → Option Nat
  | [], acc => some acc
  | '_' :: c :: cs, acc =>
      if c.isDigit then digitsU cs (acc * 10 + (c.toNat - 48)) else none
  | ['_'], _ => none
  | c :: cs, acc =>
      if c.isDigit then digitsU cs (acc * 10 + (c.toNat - 48)) else none

/-- A nonempty digit run (underscore separators allowed between digits),
starting at the first character. -/
def digitsStart : List Char → Option Nat
  | [] => none
  | c :: cs => if c.isDigit then digitsU cs (c.toNat - 48) else none

/-- Model of Python `int(s)` in base 10: surrounding whitespace is
stripped, then an optional sign followed by a nonempty digit run with
optional single underscores between digits; `none` models the
`ValueError` raised on anything else (so `" 20 "` and `"2_0"` parse to
20, while `"abc"`, `""`, `"2__0"`, `"2_"`, `"_2"` and `"- 5"` are
rejected, as `int()` rejects them). -/
def parseIntPy (s : String) : Option Int :=
  match stripEnds s.data with
  | '-' :: rest => (digitsStart rest).map (fun n => -(n : Int))
  | '+' :: rest => (digitsStart rest).map (fun n => (n : Int))
  | l => (digitsStart l).map (fun n => (n : Int))

/-- Lexicographic order on character lists by code point, as Python compares
strings. -/
def lexLe : List Char → List Char → Bool
  | [], _ => true
  | _ :: _, [] => false
  | a :: xs, b :: ys => if a == b then lexLe xs ys else decide (a.toNat < b.toNat)

/-- Stable insertion of `x` in front of the first element `y` with `le x y`. -/
def insertLe (le : α → α → Bool) (x : α) : List α → List α
  | [] => [x]
  | y :: ys => if le x y then x :: y :: ys else y :: insertLe le x ys

/-- Stable sort by insertion.  Python `sorted` is stable, and for a total
preorder every stable sort produces the same output list, so this models
`sorted(..., key=..., reverse=True)` when `le` is the reversed key
comparison (ties answer `true`, keeping the original order). -/
def sortStable (le : α → α → Bool) : List α → List α
  | [] => []
  | x :: xs => insertLe le x (sortStable le xs)

/-- Decimal rendering of a `Nat` (fuel-based so that it kernel-reduces),
modelling Python `str(n)` / `f"{n}"` for the `len(...)` counts rendered by
the source. -/
def natToStrAux : Nat → Nat → List Char
  | 0, _ => []
  | fuel + 1, n =>
    if n < 10 then [Nat.digitChar n]
    else natToStrAux fuel (n / 10) ++ [Nat.digitChar (n % 10)]

/-- Model of Python `str(n)` for `n : Nat`. -/
def natToStr (n : Nat) : String := String.mk (natToStrAux (n + 1) n)

end PyStr

/-- A Kubernetes status condition.  The source indexes `c["type"]` and
`c["status"]` directly (both required below) and reads `reason`, `message`
and `lastTransitionTime` with `.get` defaults. -/
structure Condition where
  type : String
  status : String
  reason : Option String := none
  message : Option String := none
  lastTransitionTime : Option String := none
deriving Repr, DecidableEq

/-- The readiness scan shared verbatim by `list_kustomizations`,
`get_helmreleases`, `list_gitrepositories`, `get_gitops_status` and
`get_app_deployments`:
`any(c["type"] == "Ready" and c["status"] == "True" for c in conditions)`. -/
def readyTrue (cs : List Condition) : Bool :=
  cs.any fun c => c.type == "Ready" && c.status == "True"

/-- A Flux Kustomization as read by `list_kustomizations` (flux.py):
`suspend` is `spec.suspend`, `sourceRefKind`/`sourceRefName` come from
`spec.sourceRef`, `conditions` is `status.conditions`; all read through
`.get` with defaults in the source. -/
structure Kustomization where
  name : String
  ns : String
  suspend : Option Bool := none
  path : Option String := none
  interval : Option String := none
  sourceRefKind : Option String := none
  sourceRefName : Option String := none
  conditions : Option (List Condition) := none
deriving Repr, DecidableEq

/-- Status triage of flux.py lines 102-113: suspension first, then the
Ready/True scan, else `Failed`. -/
def kustomizationStatus (k : Kustomization) : String :=
  if k.suspend.getD false then "Suspended"
  else if readyTrue (k.conditions.getD []) then "Ready"
  else "Failed"

/-- One markdown row of the `list_kustomizations` table. -/
def kustomizationRow (k : Kustomization) : String :=
  "| " ++ k.name ++ " | " ++ k.ns ++ " | " ++ kustomizationStatus k ++ " | "
    ++ (k.sourceRefKind.getD "") ++ "/" ++ (k.sourceRefName.getD "") ++ " |"

/-- The row accumulation loop of `list_kustomizations`, including the
status filter (`status_filter != "all" and status.lower() !=
status_filter.lower()` skips the row). -/
def kustomizationRows (items : List Kustomization) (statusFilter : String) :
    List String :=
  items.filterMap fun k =>
    if statusFilter != "all"
        && PyStr.lower (kustomizationStatus k) != PyStr.lower statusFilter then
      none
    else some (kustomizationRow k)

def kustHeader : String :=
  "| Name | Namespace | Status | Source |\n|------|-----------|--------|--------|"

/-- `list_kustomizations` (flux.py lines 70-127) after a successful fetch:
the fetched items are the input. -/
def listKustomizations (items : List Kustomization) (statusFilter : String) :
    String :=
  let rows := kustomizationRows items statusFilter
  if rows.isEmpty then "No Kustomizations found"
  else "## Flux Kustomizations\n\n" ++ kustHeader ++ "\n"
    ++ String.intercalate "\n" rows

/-- A Flux HelmRelease as read by `get_helmreleases` (flux.py):
`chartName` models `spec.chart.spec.chart`. -/
structure HelmRelease where
  name : String
  ns : String
  suspend : Option Bool := none
  chartName : Option String := none
  conditions : Option (List Condition) := none
deriving Repr, DecidableEq

/-- Status triage of flux.py lines 253-265 (same shape as for
Kustomizations). -/
def helmReleaseStatus (hr : HelmRelease) : String :=
  if hr.suspend.getD false then "Suspended"
  else if readyTrue (hr.conditions.getD []) then "Ready"
  else "Failed"

/-- One markdown row of the `get_helmreleases` table. -/
def helmReleaseRow (hr : HelmRelease) : String :=
  "| " ++ hr.name ++ " | " ++ hr.ns ++ " | " ++ helmReleaseStatus hr ++ " | "
    ++ (hr.chartName.getD "N/A") ++ " |"

/-- The row accumulation loop of `get_helmreleases` with its status
filter. -/
def helmReleaseRows (items : List HelmRelease) (statusFilter : String) :
    List String :=
  items.filterMap fun hr =>
    if statusFilter != "all"
        && PyStr.lower (helmReleaseStatus hr) != PyStr.lower statusFilter then
      none
    else some (helmReleaseRow hr)

def helmHeader : String :=
  "| Name | Namespace | Status | Chart |\n|------|-----------|--------|-------|"

/-- `get_helmreleases` (flux.py lines 222-279) after a successful fetch. -/
def getHelmreleases (items : List HelmRelease) (statusFilter : String) :
    String :=
  let rows := helmReleaseRows items statusFilter
  if rows.isEmpty then "No HelmReleases found"
  else "## HelmReleases\n\n" ++ helmHeader ++ "\n" ++ String.intercalate "\n" rows

/-- A Flux GitRepository as read by `list_gitrepositories` (flux.py).
`suspend` (`spec.suspend`) is part of the object model although the
function never reads it. -/
structure GitRepository where
  name : String
  ns : String
  url : Option String := none
  branch : Option String := none
  suspend : Option Bool := none
  conditions : Option (List Condition) := none
deriving Repr, DecidableEq

/-- Status triage of flux.py lines 206-211: only the Ready/True scan,
no suspension branch. -/
def gitRepositoryStatus (gr : GitRepository) : String :=
  if readyTrue (gr.conditions.getD []) then "Ready" else "Failed"

/-- One markdown row of the `list_gitrepositories` table. -/
def gitRepositoryRow (gr : GitRepository) : String :=
  "| " ++ gr.name ++ " | " ++ gr.ns ++ " | " ++ gitRepositoryStatus gr ++ " | "
    ++ (gr.branch.getD "N/A") ++ " |"

def gitRepoHeader : String :=
  "| Name | Namespace | Status | Branch |\n|------|-----------|--------|--------|"

/-- `list_gitrepositories` (flux.py lines 177-219) after a successful
fetch. -/
def listGitrepositories (items : List GitRepository) : String :=
  let rows := items.map gitRepositoryRow
  if rows.isEmpty then "No GitRepositories found"
  else "## GitRepositories\n\n" ++ gitRepoHeader ++ "\n"
    ++ String.intercalate "\n" rows

/-- A CAPI Cluster as read by `get_cluster_status` (cluster.py):
`phase`, `infraReady`, `cpReady` model `status.phase`,
`status.infrastructureReady`, `status.controlPlaneReady`. -/
structure CapiCluster where
  name : String
  ns : String
  phase : Option String := none
  infraReady : Option Bool := none
  cpReady : Option Bool := none
deriving Repr, DecidableEq

/-- Python `f"{b}"` on a bool. -/
def pyBoolStr (b : Bool) : String := if b then "True" else "False"

/-- One markdown row of the `get_cluster_status` table, including the
phase icon (cluster.py lines 49-59). -/
def capiClusterRow (c : CapiCluster) : String :=
  let phase := c.phase.getD "Unknown"
  let icon := if phase == "Provisioned" then "✅"
    else if phase == "Provisioning" then "⏳" else "❌"
  "| " ++ icon ++ " | " ++ c.name ++ " | " ++ c.ns ++ " | " ++ phase ++ " | "
    ++ pyBoolStr (c.infraReady.getD false) ++ " | "
    ++ pyBoolStr (c.cpReady.getD false) ++ " |"

/-- The row accumulation loop of `get_cluster_status` with its
cluster-name filter (`if cluster_name and c.metadata.name != cluster_name:
continue`). -/
def capiClusterRows (items : List CapiCluster) (clusterName : Option String) :
    List String :=
  items.filterMap fun c =>
    match clusterName with
    | some n => if c.name != n then none else some (capiClusterRow c)
    | none => some (capiClusterRow c)

def capiHeader : String :=
  "| | Name | Namespace | Phase | Infra Ready | CP Ready |\n|---|------|-----------|-------|-------------|----------|"

/-- `get_cluster_status` (cluster.py lines 18-65) after a successful
fetch. -/
def getClusterStatus (items : List CapiCluster) (clusterName : Option String) :
    String :=
  let rows := capiClusterRows items clusterName
  if rows.isEmpty then "No CAPI clusters found"
  else "## CAPI Clusters\n\n" ++ capiHeader ++ "\n" ++ String.intercalate "\n" rows

/-- A core event as read by `get_events` (cluster.py): the typed client
declares `last_timestamp` and `event_time` as `datetime` and deserializes
them to `datetime` objects or `None`, so `lastTimestamp` / `eventTime`
are `Option String` with `some t` modelling a present `datetime` (its ISO
rendering, whose lexicographic order among datetimes agrees with
chronological order) and `none` modelling `None`; `type` models
`e.type`. -/
structure Event where
  lastTimestamp : Option String := none
  eventTime : Option String := none
  involvedKind : String
  involvedName : String
  reason : Option String := none
  message : Option String := none
  type : Option String := none
deriving Repr, DecidableEq

/-- The sort key `e.last_timestamp or e.event_time or ""` of `get_events`:
a `datetime` object is always truthy, so a present `last_timestamp` wins,
else a present `event_time`, else the string `""`.  `some t` is a
`datetime` key; `none` stands for the `""` fallback key, which is a *str*
and not comparable with a `datetime`. -/
def eventSortKey (e : Event) : Option String :=
  match e.lastTimestamp with
  | some t => some t
  | none => e.eventTime

/-- Reversed key comparison used to model
`sorted(..., key=..., reverse=True)` on key-homogeneous event lists: two
datetime keys compare chronologically, two `""` fallback keys are equal;
ties answer `true`, preserving the original order under the stable sort.
A datetime/str comparison raises `TypeError` in the source; this
function is only ever applied under the homogeneity test of
`sortedEventsDesc`, so its value on a mixed pair is never used. -/
def eventDescLe (a b : Event) : Bool :=
  match eventSortKey a, eventSortKey b with
  | some x, some y => PyStr.lexLe y.data x.data
  | none, none => true
  | _, _ => true

/-- Whether the list holds both a datetime-keyed event and a
`""`-fallback-keyed event.  Any comparison sort must compare some pair
drawn from the two classes directly (their relative order cannot be
derived from within-class comparisons alone), and every such comparison
raises `TypeError`; on a key-homogeneous list no mixed comparison can
occur.  So Python `sorted` raises exactly on mixed lists. -/
def mixedKeys (events : List Event) : Bool :=
  (events.any fun e => (eventSortKey e).isSome)
    && (events.any fun e => (eventSortKey e).isNone)

/-- The `sorted_events` computation of `get_events` (cluster.py lines
138-142), which sits *outside* the `try` block: on a list mixing present
and absent timestamps the `datetime`/`str` key comparison raises an
uncaught `TypeError` (modelled as `.error`); on a key-homogeneous list it
returns the stable descending sort. -/
def sortedEventsDesc (events : List Event) : Except String (List Event) :=
  if mixedKeys events then
    .error "TypeError: str and datetime.datetime instances are not comparable"
  else .ok (PyStr.sortStable eventDescLe events)

/-- The two `continue` filters of the `get_events` loop: keep the event
when the resource-name filter and the event-type filter both pass. -/
def eventKeep (resourceName : Option String) (eventType : String) (e : Event) :
    Bool :=
  (match resourceName with
    | some r => e.involvedName == r
    | none => true)
  && (eventType == "all" || e.type == some eventType)

/-- One markdown row of the `get_events` table, with the type icon and the
60-character message cut. -/
def eventRow (e : Event) : String :=
  let icon := if e.type == some "Warning" then "⚠️" else "ℹ️"
  "| " ++ icon ++ " | " ++ e.involvedKind ++ "/" ++ e.involvedName ++ " | "
    ++ (e.reason.getD "") ++ " | " ++ PyStr.take (e.message.getD "") 60 ++ " |"

/-- The row loop of `get_events` (cluster.py lines 148-169): per event,
first `break` once `count >= max_count`, then the two filters
(`continue`), then append a row and increment `count`. -/
def eventsLoop (maxCount : Int) (resourceName : Option String)
    (eventType : String) : List Event → Int → List String
  | [], _ => []
  | e :: rest, count =>
    if count ≥ maxCount then []
    else if eventKeep resourceName eventType e then
      eventRow e :: eventsLoop maxCount resourceName eventType rest (count + 1)
    else eventsLoop maxCount resourceName eventType rest count

/-- The rows produced by `get_events` from the already-sorted event list,
for an already-parsed limit. -/
def getEventsRows (sortedEvs : List Event) (resourceName : Option String)
    (eventType : String) (maxCount : Int) : List String :=
  eventsLoop maxCount resourceName eventType sortedEvs 0

def eventsHeader : String :=
  "| Type | Resource | Reason | Message |\n|------|----------|--------|---------|"

/-- `get_events` (cluster.py lines 115-175).  The fetch
`core_v1.list_namespaced_event` is wrapped in `try`/`except` by the
source, so a failed fetch is converted to a normal `"Error: ..."` string
result (`.ok`).  Both the sort (line 138) and the parse `max_count =
int(limit)` (line 146) happen *outside* any `try`, in that source order,
so a mixed-timestamp `TypeError` or an unparseable-limit `ValueError` is
an uncaught exception, modelled as `.error`. -/
def getEvents (fetch : Except String (List Event)) (ns : String)
    (resourceName : Option String) (eventType : String) (limit : String) :
    Except String String :=
  match fetch with
  | .error e => .ok ("Error: " ++ e)
  | .ok events =>
    match sortedEventsDesc events with
    | .error msg => .error msg
    | .ok sortedEvs =>
      match PyStr.parseIntPy limit with
      | none => .error ("invalid literal for int with base 10: " ++ limit)
      | some m =>
        let rows := getEventsRows sortedEvs resourceName eventType m
        .ok (if rows.isEmpty then "No events found in namespace " ++ ns
          else "## Events in " ++ ns ++ "\n\n" ++ eventsHeader ++ "\n"
            ++ String.intercalate "\n" rows)

/-- Model of Python `str.title()` for ASCII text, as used on constraint
template names (policy.py lines 80 and 190): a letter is uppercased when
the previous character is not a letter and lowercased otherwise;
non-letters (digits, hyphens) pass through and end the current word. -/
def titleMap : Bool → List Char → List Char
  | _, [] => []
  | prevCased, c :: cs =>
    if c.isAlpha then
      (if prevCased then c.toLower else c.toUpper) :: titleMap true cs
    else c :: titleMap false cs

/-- Python `name.title()`. -/
def pyTitle (s : String) : String := String.mk (titleMap false s.data)

/-- The constraint-kind transform `kind.title().replace("-", "")` of
policy.py (replacing every `"-"` by `""` removes exactly the hyphen
characters). -/
def constraintKindOf (t : String) : String :=
  String.mk ((pyTitle t).data.filter (fun c => c != '-'))

/-- A violation record as accumulated by `check_policy_violations`
(dict with keys engine/policy/resource/message). -/
structure Violation where
  engine : String
  policy : String
  resource : String
  message : String
deriving Repr, DecidableEq

/-- One entry of a Gatekeeper constraint's `status.violations` list; all
fields are read with `.get` in the source. -/
structure GkViolationEntry where
  ns : Option String := none
  kind : Option String := none
  name : Option String := none
  message : Option String := none
deriving Repr, DecidableEq

/-- A Gatekeeper constraint object: `totalViolations` models
`status.totalViolations` (`.get` default 0), `violations`
`status.violations` (`.get` default `[]`). -/
structure Constraint where
  name : String
  totalViolations : Int
  violations : List GkViolationEntry
deriving Repr, DecidableEq

/-- The Gatekeeper side of the cluster as seen by
`_check_gatekeeper_violations`: the constraint-template name list (the
outer fetch, `.error` = the outer `except` path) and, per constraint
kind, the constraint list (the inner fetch, `.error` = the inner
`except Exception: continue` path). -/
structure GateState where
  templates : Except String (List String)
  constraintsOf : String → Except String (List Constraint)

/-- Building one violation dict (policy.py lines 94-99). -/
def gkViolationOf (policy : String) (v : GkViolationEntry) : Violation :=
  { engine := "Gatekeeper", policy := policy,
    resource := (v.kind.getD "") ++ "/" ++ (v.name.getD ""),
    message := v.message.getD "No message" }

/-- The namespace filter of the Gatekeeper loop:
`if namespace and v.get("namespace") != namespace: continue`. -/
def nsFilterKeep (ns : Option String) (v : GkViolationEntry) : Bool :=
  match ns with
  | some n => v.ns == some n
  | none => true

/-- Violations contributed by one constraint (policy.py lines 84-99):
nothing unless `status.totalViolations > 0`. -/
def constraintViolations (ns : Option String) (c : Constraint) :
    List Violation :=
  if c.totalViolations > 0 then
    (c.violations.filter (nsFilterKeep ns)).map (gkViolationOf c.name)
  else []

/-- Violations contributed by one constraint template: the constraint
kind is looked up through `constraintKindOf`; a failing lookup is the
`except Exception: continue` path. -/
def templateViolations (st : GateState) (ns : Option String) (t : String) :
    List Violation :=
  match st.constraintsOf (constraintKindOf t) with
  | .error _ => []
  | .ok cs => cs.flatMap (constraintViolations ns)

/-- `_check_gatekeeper_violations` (policy.py lines 61-106). -/
def checkGatekeeperViolations (st : GateState) (ns : Option String) :
    List Violation :=
  match st.templates with
  | .error _ => []
  | .ok ts => ts.flatMap (templateViolations st ns)

/-- One entry of a policy-report result's `resources` list. -/
structure ResourceRef where
  kind : Option String := none
  name : Option String := none
deriving Repr, DecidableEq

/-- One entry of a policy report's `results` list.  `resources = none`
models an absent key (the source substitutes `[{}]`); `some []` models a
present but empty list, on which the source's `[0]` raises `IndexError`
inside the enclosing `try`. -/
structure PolicyResult where
  result : Option String := none
  policy : Option String := none
  resources : Option (List ResourceRef) := none
  message : Option String := none
deriving Repr, DecidableEq

/-- A (Cluster)PolicyReport: `results` models `report.get("results", [])`. -/
structure PolicyReport where
  results : List PolicyResult
deriving Repr, DecidableEq

/-- The Kyverno side of the cluster as seen by
`_check_kyverno_violations`: cluster-scoped reports, and namespace-scoped
reports as a function of the optional namespace argument. -/
structure KyvernoState where
  clusterReports : Except String (List PolicyReport)
  nsReports : Option String → Except String (List PolicyReport)

/-- Building one Kyverno violation dict (policy.py lines 125-130). -/
def kyvernoViolationOf (r : PolicyResult) (rr : ResourceRef) : Violation :=
  { engine := "Kyverno", policy := r.policy.getD "Unknown",
    resource := (rr.kind.getD "") ++ "/" ++ (rr.name.getD ""),
    message := r.message.getD "No message" }

/-- Scan of one report's `results` list.  An `.error` outcome models the
`IndexError` raised by `r.get("resources", [{}])[0]` on a present-but-
empty `resources` list: it aborts the enclosing `try` block, keeping the
violations accumulated so far. -/
def scanResults : List Violation → List PolicyResult →
    Except (List Violation) (List Violation)
  | acc, [] => .ok acc
  | acc, r :: rest =>
    if r.result == some "fail" then
      match r.resources with
      | some [] => .error acc
      | some (rr :: _) => scanResults (acc ++ [kyvernoViolationOf r rr]) rest
      | none => scanResults (acc ++ [kyvernoViolationOf r ⟨none, none⟩]) rest
    else scanResults acc rest

/-- Scan of a list of reports, propagating an abort. -/
def scanReports : List Violation → List PolicyReport →
    Except (List Violation) (List Violation)
  | acc, [] => .ok acc
  | acc, rep :: rest =>
    match scanResults acc rep.results with
    | .error a => .error a
    | .ok a => scanReports a rest

/-- One `try` block of `_check_kyverno_violations`: a failed fetch or an
aborted scan keeps whatever was accumulated before (`except Exception:
pass`). -/
def kyvernoBlock (fetch : Except String (List PolicyReport))
    (acc : List Violation) : List Violation :=
  match fetch with
  | .error _ => acc
  | .ok reps =>
    match scanReports acc reps with
    | .error a => a
    | .ok a => a

/-- `_check_kyverno_violations` (policy.py lines 109-159): the
cluster-report block, then the namespaced-report block. -/
def checkKyvernoViolations (st : KyvernoState) (ns : Option String) :
    List Violation :=
  kyvernoBlock (st.nsReports ns) (kyvernoBlock st.clusterReports [])

/-- The `violations` list of `check_policy_violations` (policy.py lines
30-38): the Gatekeeper check runs when `policy_engine in ["gatekeeper",
"both"]`, the Kyverno check when `policy_engine in ["kyverno", "both"]`,
and the lists are concatenated in that order. -/
def selectedViolations (st : GateState) (kst : KyvernoState)
    (ns : Option String) (engine : String) : List Violation :=
  (if engine ∈ (["gatekeeper", "both"] : List String) then
      checkGatekeeperViolations st ns
    else [])
  ++ (if engine ∈ (["kyverno", "both"] : List String) then
      checkKyvernoViolations kst ns
    else [])

/-- One markdown row of the violations table, with the 50-character
message cut. -/
def violationRow (v : Violation) : String :=
  "| " ++ v.engine ++ " | " ++ v.policy ++ " | " ++ v.resource ++ " | "
    ++ PyStr.take v.message 50 ++ " |"

def policyHeader : String :=
  "| Engine | Policy | Resource | Message |\n|--------|--------|----------|---------|"

/-- The success message returned when no violations were collected. -/
def noViolationsMsg (engine : String) : String :=
  "## Policy Violations\n\n**Engine(s) checked:** " ++ engine
    ++ "\n**Result:** ✅ No violations found\n"

/-- `check_policy_violations` (policy.py lines 17-58). -/
def checkPolicyViolations (st : GateState) (kst : KyvernoState)
    (ns : Option String) (engine : String) : String :=
  let violations := selectedViolations st kst ns engine
  if violations.isEmpty then noViolationsMsg engine
  else
    "## Policy Violations\n\n**Engine(s) checked:** " ++ engine
      ++ "\n**Violations found:** " ++ PyStr.natToStr violations.length
      ++ "\n\n" ++ policyHeader ++ "\n"
      ++ String.intercalate "\n" (violations.map violationRow)

/-- A Kommander App/ClusterApp object as read by `get_app_deployments`
(apps.py). -/
structure AppObject where
  name : String
  ns : String
  conditions : Option (List Condition) := none
deriving Repr, DecidableEq

/-- One result record of `get_app_deployments` (dict with keys
type/name/namespace/status). -/
structure AppResult where
  type : String
  name : String
  ns : String
  status : String
deriving Repr, DecidableEq

/-- Per-object status in `get_app_deployments`: `"Ready"` on a Ready/True
condition, else `"Not Ready"`. -/
def appStatus (a : AppObject) : String :=
  if readyTrue (a.conditions.getD []) then "Ready" else "Not Ready"

/-- One `try` block of `get_app_deployments` (apps.py lines 33-67 and
70-100): a failed fetch contributes nothing (`except: pass`); otherwise
every item passing the name filter contributes one record tagged with the
source kind. -/
def appResultsOf (tag : String) (fetch : Except String (List AppObject))
    (appName : Option String) : List AppResult :=
  match fetch with
  | .error _ => []
  | .ok items =>
    (items.filter fun a =>
        match appName with
        | some n => a.name == n
        | none => true).map
      fun a => { type := tag, name := a.name, ns := a.ns, status := appStatus a }

/-- The Kommander side of the cluster as seen by `get_app_deployments`:
the namespaced App fetch (a function of the optional workspace) and the
cluster-scoped ClusterApp fetch. -/
structure AppsState where
  apps : Option String → Except String (List AppObject)
  clusterApps : Except String (List AppObject)

/-- One markdown row of the `get_app_deployments` table. -/
def appRow (r : AppResult) : String :=
  "| " ++ r.type ++ " | " ++ r.name ++ " | " ++ r.ns ++ " | " ++ r.status ++ " |"

def appsHeader : String :=
  "| Type | Name | Namespace | Status |\n|------|------|-----------|--------|"

/-- `get_app_deployments` (apps.py lines 17-110). -/
def getAppDeployments (st : AppsState) (workspace appName : Option String) :
    String :=
  let results := appResultsOf "App" (st.apps workspace) appName
    ++ appResultsOf "ClusterApp" st.clusterApps appName
  if results.isEmpty then
    "No Kommander Apps/ClusterApps found (Kommander may not be installed)"
  else "## Kommander Applications\n\n" ++ appsHeader ++ "\n"
    ++ String.intercalate "\n" (results.map appRow)

def sourceHint : String :=
  "- Check if the source (GitRepository/HelmRepository) exists and is ready\n"

def validationHint : String :=
  "- Check the manifest syntax and Kubernetes API compatibility\n"

def healthHint : String :=
  "- Check if deployed resources are healthy (pods running, etc.)\n"

/-- The hint lines appended for one condition by the recommendation loop
of `debug_reconciliation` (flux.py lines 333-341): only a
`Ready`/`False` condition produces hints, one per matching reason
substring, in the fixed order Source, Validation, Health. -/
def conditionHints (c : Condition) : List String :=
  if c.status == "False" && c.type == "Ready" then
    (if PyStr.containsStr (c.reason.getD "") "Source" then [sourceHint] else [])
      ++ (if PyStr.containsStr (c.reason.getD "") "Validation" then
          [validationHint] else [])
      ++ (if PyStr.containsStr (c.reason.getD "") "Health" then
          [healthHint] else [])
  else []

/-- The recommendations section of `debug_reconciliation` (flux.py lines
331-341). -/
def debugRecommendations (conditions : List Condition) : String :=
  "\n### Recommendations\n\n" ++ String.join (conditions.flatMap conditionHints)

theorem readyTrue_iff (cs : List Condition) :
    readyTrue cs = true ↔ ∃ c ∈ cs, c.type = "Ready" ∧ c.status = "True" := by
  simp [readyTrue, List.any_eq_true, Bool.and_eq_true, beq_iff_eq]

theorem readyTrue_eq_false_of_not_exists {cs : List Condition}
    (h : ¬ ∃ c ∈ cs, c.type = "Ready" ∧ c.status = "True") :
    readyTrue cs = false := by
  rcases Bool.eq_false_or_eq_true (readyTrue cs) with h1 | h1
  · exact absurd ((readyTrue_iff cs).1 h1) h
  · exact h1

/-- C1: for every Kustomization and every HelmRelease, the derived status
follows the exact order: `spec.suspend` true gives `Suspended` regardless
of the conditions; otherwise a condition with type `"Ready"` and status
`"True"` gives `Ready`; otherwise (in particular on an empty or absent
conditions list) the status is `Failed`. -/
theorem C1_derived_status_order :
    ∀ (k : Kustomization) (hr : HelmRelease),
      (k.suspend.getD false = true → kustomizationStatus k = "Suspended")
      ∧ (k.suspend.getD false = false →
          ((∃ c ∈ k.conditions.getD [], c.type = "Ready" ∧ c.status = "True") →
            kustomizationStatus k = "Ready")
          ∧ ((¬ ∃ c ∈ k.conditions.getD [], c.type = "Ready" ∧ c.status = "True") →
            kustomizationStatus k = "Failed"))
      ∧ (hr.suspend.getD false = true → helmReleaseStatus hr = "Suspended")
      ∧ (hr.suspend.getD false = false →
          ((∃ c ∈ hr.conditions.getD [], c.type = "Ready" ∧ c.status = "True") →
            helmReleaseStatus hr = "Ready")
          ∧ ((¬ ∃ c ∈ hr.conditions.getD [], c.type = "Ready" ∧ c.status = "True") →
            helmReleaseStatus hr = "Failed")) := by
  intro k hr
  refine ⟨fun h => ?_, fun h => ⟨fun hex => ?_, fun hnex => ?_⟩,
    fun h => ?_, fun h => ⟨fun hex => ?_, fun hnex => ?_⟩⟩
  · simp [kustomizationStatus, h]
  · simp [kustomizationStatus, h, (readyTrue_iff _).2 hex]
  · simp [kustomizationStatus, h, readyTrue_eq_false_of_not_exists hnex]
  · simp [helmReleaseStatus, h]
  · simp [helmReleaseStatus, h, (readyTrue_iff _).2 hex]
  · simp [helmReleaseStatus, h, readyTrue_eq_false_of_not_exists hnex]

theorem C1_derived_status_order_witness :
    kustomizationStatus
        ⟨"a", "d", some true, none, none, none, none,
          some [⟨"Ready", "True", none, none, none⟩]⟩ = "Suspended"
    ∧ kustomizationStatus
        ⟨"a", "d", none, none, none, none, none,
          some [⟨"Ready", "True", none, none, none⟩]⟩ = "Ready"
    ∧ kustomizationStatus ⟨"a", "d", some false, none, none, none, none, none⟩
        = "Failed"
    ∧ helmReleaseStatus
        ⟨"h", "d", some true, none, some [⟨"Ready", "True", none, none, none⟩]⟩
        = "Suspended"
    ∧ helmReleaseStatus
        ⟨"h", "d", none, none, some [⟨"Ready", "True", none, none, none⟩]⟩
        = "Ready"
    ∧ helmReleaseStatus ⟨"h", "d", none, none, some []⟩ = "Failed" := by
  refine ⟨?_, ?_, ?_, ?_, ?_, ?_⟩
  · exact (C1_derived_status_order
      ⟨"a", "d", some true, none, none, none, none,
        some [⟨"Ready", "True", none, none, none⟩]⟩
      ⟨"h", "d", none, none, none⟩).1 rfl
  · exact ((C1_derived_status_order
      ⟨"a", "d", none, none, none, none, none,
        some [⟨"Ready", "True", none, none, none⟩]⟩
      ⟨"h", "d", none, none, none⟩).2.1 rfl).1 (by decide)
  · exact ((C1_derived_status_order
      ⟨"a", "d", some false, none, none, none, none, none⟩
      ⟨"h", "d", none, none, none⟩).2.1 rfl).2 (by decide)
  · exact (C1_derived_status_order
      ⟨"a", "d", none, none, none, none, none, none⟩
      ⟨"h", "d", some true, none,
        some [⟨"Ready", "True", none, none, none⟩]⟩).2.2.1 rfl
  · exact ((C1_derived_status_order
      ⟨"a", "d", none, none, none, none, none, none⟩
      ⟨"h", "d", none, none,
        some [⟨"Ready", "True", none, none, none⟩]⟩).2.2.2 rfl).1 (by decide)
  · exact ((C1_derived_status_order
      ⟨"a", "d", none, none, none, none, none, none⟩
      ⟨"h", "d", none, none, some []⟩).2.2.2 rfl).2 (by decide)

/-- C9: `list_gitrepositories` classifies every GitRepository as `Ready`
or `Failed` only, from the Ready/True condition scan alone; it never
reports `Suspended` and the result is invariant under any value of
`spec.suspend`, so a suspended repository with a Ready/True condition is
reported `Ready`. -/
theorem C9_gitrepo_status_binary :
    ∀ gr : GitRepository,
      (gitRepositoryStatus gr = "Ready" ∨ gitRepositoryStatus gr = "Failed")
      ∧ (∀ b : Option Bool,
          gitRepositoryStatus { gr with suspend := b } = gitRepositoryStatus gr)
      ∧ ((∃ c ∈ gr.conditions.getD [], c.type = "Ready" ∧ c.status = "True") →
          gitRepositoryStatus gr = "Ready")
      ∧ gitRepositoryStatus gr ≠ "Suspended" := by
  intro gr
  refine ⟨?_, fun b => rfl, fun hex => ?_, ?_⟩
  · unfold gitRepositoryStatus; split
    · exact Or.inl rfl
    · exact Or.inr rfl
  · simp [gitRepositoryStatus, (readyTrue_iff _).2 hex]
  · unfold gitRepositoryStatus; split
    · decide
    · decide

theorem C9_gitrepo_status_binary_witness :
    gitRepositoryStatus
        ⟨"repo", "flux-system", some "https://example.com/r.git", some "main",
          some true, some [⟨"Ready", "True", none, none, none⟩]⟩ = "Ready" :=
  (C9_gitrepo_status_binary _).2.2.1 (by decide)

theorem filterMap_if_eq {α : Type} (p : α → Bool) (g : α → String)
    (l : List α) :
    (l.filterMap fun a => if p a then none else some (g a))
      = (l.filter fun a => !p a).map g := by
  induction l with
  | nil => rfl
  | cons x xs ih =>
    by_cases h : p x <;> simp [List.filterMap_cons, List.filter_cons, h, ih]

theorem kustomizationRows_eq_filter_map (items : List Kustomization)
    (f : String) :
    kustomizationRows items f
      = (items.filter fun k =>
          !(f != "all"
            && PyStr.lower (kustomizationStatus k) != PyStr.lower f)).map
          kustomizationRow := by
  unfold kustomizationRows
  exact filterMap_if_eq _ _ _

theorem capiClusterRows_none_eq (items : List CapiCluster) :
    capiClusterRows items none = items.map capiClusterRow := by
  induction items with
  | nil => rfl
  | cons x xs ih => simp [capiClusterRows, List.filterMap_cons] at ih ⊢; exact ih

/-- C8: the embedded listing functions never render a header-only table:
an empty post-filter row sequence yields the single no-resources
sentence (which contains no table bar at all), and a non-empty row
sequence yields the title and header followed by exactly the rows, one
per surviving record, in input order. -/
theorem C8_no_header_only_tables :
    ∀ (items : List Kustomization) (f : String) (cl : List CapiCluster)
      (cn : Option String),
      (kustomizationRows items f = [] →
        listKustomizations items f = "No Kustomizations found")
      ∧ (kustomizationRows items f ≠ [] →
          listKustomizations items f
            = "## Flux Kustomizations\n\n" ++ kustHeader ++ "\n"
              ++ String.intercalate "\n" (kustomizationRows items f))
      ∧ kustomizationRows items f
          = (items.filter fun k =>
              !(f != "all"
                && PyStr.lower (kustomizationStatus k) != PyStr.lower f)).map
              kustomizationRow
      ∧ ¬ '|' ∈ "No Kustomizations found".data
      ∧ (capiClusterRows cl cn = [] →
          getClusterStatus cl cn = "No CAPI clusters found")
      ∧ (capiClusterRows cl cn ≠ [] →
          getClusterStatus cl cn
            = "## CAPI Clusters\n\n" ++ capiHeader ++ "\n"
              ++ String.intercalate "\n" (capiClusterRows cl cn))
      ∧ capiClusterRows cl none = cl.map capiClusterRow
      ∧ ¬ '|' ∈ "No CAPI clusters found".data := by
  intro items f cl cn
  refine ⟨fun h => ?_, fun h => ?_, kustomizationRows_eq_filter_map items f,
    by decide, fun h => ?_, fun h => ?_, capiClusterRows_none_eq cl, by decide⟩
  · simp [listKustomizations, h]
  · cases hrows : kustomizationRows items f with
    | nil => exact absurd hrows h
    | cons a as => simp [listKustomizations, hrows]
  · simp [getClusterStatus, h]
  · cases hrows : capiClusterRows cl cn with
    | nil => exact absurd hrows h
    | cons a as => simp [getClusterStatus, hrows]

theorem C8_no_header_only_tables_witness :
    listKustomizations [] "all" = "No Kustomizations found"
    ∧ listKustomizations
        [⟨"app", "d", none, none, none, some "GitRepository", some "repo",
          some [⟨"Ready", "True", none, none, none⟩]⟩] "all"
        = "## Flux Kustomizations\n\n" ++ kustHeader ++ "\n"
          ++ String.intercalate "\n"
            (kustomizationRows
              [⟨"app", "d", none, none, none, some "GitRepository", some "repo",
                some [⟨"Ready", "True", none, none, none⟩]⟩] "all")
    ∧ getClusterStatus [] none = "No CAPI clusters found"
    ∧ getClusterStatus [⟨"c1", "d", some "Provisioned", some true, some true⟩]
        none
        = "## CAPI Clusters\n\n" ++ capiHeader ++ "\n"
          ++ String.intercalate "\n"
            (capiClusterRows [⟨"c1", "d", some "Provisioned", some true, some true⟩]
              none) := by
  refine ⟨?_, ?_, ?_, ?_⟩
  · exact (C8_no_header_only_tables [] "all" [] none).1 rfl
  · exact (C8_no_header_only_tables _ "all" [] none).2.1 (by decide)
  · exact (C8_no_header_only_tables [] "all" [] none).2.2.2.2.1 rfl
  · exact (C8_no_header_only_tables [] "all" _ none).2.2.2.2.2.1 (by decide)

theorem eventsLoop_eq_take_filter (m : Int) (rn : Option String) (et : String) :
    ∀ (l : List Event) (c : Int),
      eventsLoop m rn et l c
        = ((l.filter (eventKeep rn et)).map eventRow).take (m - c).toNat := by
  intro l
  induction l with
  | nil => intro c; simp [eventsLoop]
  | cons e rest ih =>
    intro c
    by_cases hc : c ≥ m
    · have h0 : (m - c).toNat = 0 := by omega
      simp [eventsLoop, hc, h0]
    · have h1 : (m - c).toNat = (m - (c + 1)).toNat + 1 := by omega
      by_cases hk : eventKeep rn et e
      · simp [eventsLoop, hc, hk, ih, h1, List.filter_cons]
      · simp [eventsLoop, hc, hk, ih, List.filter_cons]

/-- Sample event with the earliest timestamp T1. -/
def evT1 : Event :=
  { lastTimestamp := some "2024-01-01T00:00:00Z", involvedKind := "Pod",
    involvedName := "p1", reason := some "Started", message := some "m1",
    type := some "Normal" }

/-- Sample event with the middle timestamp T2. -/
def evT2 : Event :=
  { lastTimestamp := some "2024-01-02T00:00:00Z", involvedKind := "Pod",
    involvedName := "p2", reason := some "Killing", message := some "m2",
    type := some "Warning" }

/-- Sample event with the latest timestamp T3. -/
def evT3 : Event :=
  { lastTimestamp := some "2024-01-03T00:00:00Z", involvedKind := "Pod",
    involvedName := "p3", reason := some "Pulled", message := some "m3",
    type := some "Normal" }

/-- Sample event with no timestamp at all. -/
def evT0 : Event :=
  { involvedKind := "Pod", involvedName := "p0", type := some "Normal" }

/-- C6 counterexample: an event whose timestamps are absent does not
sort as earliest — mixing it with a timestamped event makes the sort key
list hold both a `datetime` and the `str` `""`, so the `sorted()` call of
`get_events` raises an uncaught `TypeError` instead of returning a sorted
report. -/
theorem C6_counterexample_mixed_timestamps :
    sortedEventsDesc [evT0, evT1]
        = .error "TypeError: str and datetime.datetime instances are not comparable"
    ∧ getEvents (.ok [evT0, evT1]) "default" none "all" "20"
        = .error "TypeError: str and datetime.datetime instances are not comparable" :=
  ⟨rfl, rfl⟩

/-- C6 (amended): on event lists whose sort keys are homogeneous (all
timestamped, or all lacking timestamps), `get_events` sorts by the
last-seen timestamp descending, then applies the resource-name and
event-type filters, then truncates to the parsed limit; on timestamps
T3 > T2 > T1 presented as [T3, T1, T2] with no filters the rows come out
as [T3, T2, T1], and limit 2 yields exactly [T3, T2].  An event with an
absent timestamp does not sort as earliest: mixed lists raise instead
(see the counterexample). -/
theorem C6_events_sort_filter_truncate :
    (∀ (sortedEvs : List Event) (rn : Option String) (et : String) (m : Int),
        getEventsRows sortedEvs rn et m
          = ((sortedEvs.filter (eventKeep rn et)).map eventRow).take m.toNat)
    ∧ (∀ events : List Event, mixedKeys events = false →
        sortedEventsDesc events = .ok (PyStr.sortStable eventDescLe events))
    ∧ sortedEventsDesc [evT3, evT1, evT2] = .ok [evT3, evT2, evT1]
    ∧ getEventsRows [evT3, evT2, evT1] none "all" 20
        = [eventRow evT3, eventRow evT2, eventRow evT1]
    ∧ getEventsRows [evT3, evT2, evT1] none "all" 2
        = [eventRow evT3, eventRow evT2]
    ∧ getEvents (.ok [evT3, evT1, evT2]) "default" none "all" "2"
        = .ok ("## Events in default\n\n" ++ eventsHeader ++ "\n"
            ++ String.intercalate "\n" [eventRow evT3, eventRow evT2])
    ∧ sortedEventsDesc [evT0] = .ok [evT0] := by
  refine ⟨fun sortedEvs rn et m => ?_, fun events hm => ?_, rfl,
    by decide, by decide, rfl, rfl⟩
  · rw [getEventsRows, eventsLoop_eq_take_filter]
    simp
  · simp [sortedEventsDesc, hm]

theorem C6_events_sort_filter_truncate_witness :
    sortedEventsDesc [evT3, evT1, evT2]
      = .ok (PyStr.sortStable eventDescLe [evT3, evT1, evT2]) :=
  C6_events_sort_filter_truncate.2.1 [evT3, evT1, evT2] (by decide)

/-- C3 counterexample: `get_events` parses its `limit` parameter outside
the `try` block, so the unparseable limit `"abc"` raises an uncaught
`ValueError` (modelled as `.error`) instead of returning an error
string. -/
theorem C3_counterexample_uncaught_limit :
    getEvents (.ok []) "default" none "all" "abc"
      = .error "invalid literal for int with base 10: abc" := rfl

/-- C3 (amended): `get_events` converts cluster-access failures into a
normal `"Error: ..."` string result, but its post-fetch pipeline is not
protected: the result is an uncaught exception exactly when the fetch
succeeded and either the fetched events mix present and absent
timestamps (the `sorted()` call at line 138 raises `TypeError`) or
`int(limit)` fails (line 146 raises `ValueError`).  The limit parse
accepts everything CPython `int()` accepts, including surrounding
whitespace and underscore digit separators. -/
theorem C3_error_boundary :
    ∀ (fetch : Except String (List Event)) (ns : String) (rn : Option String)
      (et limit : String),
      ((∃ msg, getEvents fetch ns rn et limit = .error msg) ↔
        (∃ evs, fetch = .ok evs ∧
          (mixedKeys evs = true ∨ PyStr.parseIntPy limit = none)))
      ∧ (∀ e, fetch = .error e →
          getEvents fetch ns rn et limit = .ok ("Error: " ++ e))
      ∧ PyStr.parseIntPy " 20 " = some 20
      ∧ PyStr.parseIntPy "2_0" = some 20
      ∧ PyStr.parseIntPy "abc" = none := by
  intro fetch ns rn et limit
  refine ⟨?_, fun e he => by subst he; rfl, by decide, by decide, by decide⟩
  cases fetch with
  | error e => simp [getEvents]
  | ok evs =>
    cases hm : mixedKeys evs with
    | true => simp [getEvents, sortedEventsDesc, hm]
    | false =>
      cases hp : PyStr.parseIntPy limit with
      | none => simp [getEvents, sortedEventsDesc, hm, hp]
      | some m => simp [getEvents, sortedEventsDesc, hm, hp]

theorem C3_error_boundary_witness :
    getEvents (.error "connection refused") "default" none "all" "20"
      = .ok "Error: connection refused" :=
  (C3_error_boundary (.error "connection refused") "default" none "all" "20").2.1
    "connection refused" rfl

/-- C2: evaluation of the constraint-kind transform
`kind.title().replace("-", "")` at the spec's inputs: Python `title()`
uppercases a letter that follows a digit, so `"k8s-allowed-repos"` maps
to `"K8SAllowedRepos"`, not to the `"K8sAllowedRepos"` the spec states
(and `list_constraints`' own docstring example kind `K8sRequiredLabels`
can likewise never be produced); the digit-free example
`"unique-labels"` does map to `"UniqueLabels"`. -/
theorem C2_constraint_kind_transform_eval :
    constraintKindOf "k8s-allowed-repos" = "K8SAllowedRepos"
    ∧ constraintKindOf "k8s-allowed-repos" ≠ "K8sAllowedRepos"
    ∧ constraintKindOf "unique-labels" = "UniqueLabels"
    ∧ constraintKindOf "k8s-required-labels" = "K8SRequiredLabels"
    ∧ constraintKindOf "k8s-required-labels" ≠ "K8sRequiredLabels" :=
  ⟨rfl, by decide, rfl, rfl, by decide⟩

/-- C7: in the recommendation loop of `debug_reconciliation`, a condition
with type `"Ready"` and status `"False"` contributes the source hint iff
its reason contains `"Source"`, the manifest-syntax hint iff it contains
`"Validation"`, the health hint iff it contains `"Health"`, and nothing
else; the reason `"ValidationFailed"` produces exactly the
manifest-syntax hint. -/
theorem C7_debug_hint_rules :
    (∀ c : Condition, c.type = "Ready" → c.status = "False" →
      (sourceHint ∈ conditionHints c ↔
        PyStr.containsStr (c.reason.getD "") "Source" = true)
      ∧ (validationHint ∈ conditionHints c ↔
        PyStr.containsStr (c.reason.getD "") "Validation" = true)
      ∧ (healthHint ∈ conditionHints c ↔
        PyStr.containsStr (c.reason.getD "") "Health" = true)
      ∧ ∀ l ∈ conditionHints c,
          l = sourceHint ∨ l = validationHint ∨ l = healthHint)
    ∧ conditionHints ⟨"Ready", "False", some "ValidationFailed", none, none⟩
        = [validationHint]
    ∧ ∀ cs : List Condition,
        debugRecommendations cs
          = "\n### Recommendations\n\n"
            ++ String.join (cs.flatMap conditionHints) := by
  refine ⟨fun c ht hs => ?_, by decide, fun cs => rfl⟩
  have hcond : (c.status == "False" && c.type == "Ready") = true := by
    simp [ht, hs]
  by_cases h1 : PyStr.containsStr (c.reason.getD "") "Source" = true <;>
    by_cases h2 : PyStr.containsStr (c.reason.getD "") "Validation" = true <;>
      by_cases h3 : PyStr.containsStr (c.reason.getD "") "Health" = true <;>
        simp [conditionHints, hcond, h1, h2, h3] <;> decide

theorem C7_debug_hint_rules_witness :
    sourceHint
        ∈ conditionHints ⟨"Ready", "False", some "SourceNotReady", none, none⟩
    ∧ validationHint
        ∉ conditionHints ⟨"Ready", "False", some "SourceNotReady", none, none⟩ := by
  have h := (C7_debug_hint_rules.1
    ⟨"Ready", "False", some "SourceNotReady", none, none⟩ rfl rfl)
  exact ⟨h.1.2 (by decide), fun hm => absurd (h.2.1.1 hm) (by decide)⟩

/-- Sample cluster-scoped application that is Ready. -/
def readyClusterApp : AppObject :=
  { name := "kommander-app", ns := "kommander",
    conditions := some [⟨"Ready", "True", none, none, none⟩] }

/-- Sample Kommander state: the namespaced App API raises, the
cluster-scoped ClusterApp API returns one ready item. -/
def appsApiDownState : AppsState :=
  { apps := fun _ => .error "ApiUnavailable",
    clusterApps := .ok [readyClusterApp] }

/-- C4: in `get_app_deployments` the App and ClusterApp lookups fail
independently: a raising App API contributes nothing while the
ClusterApp results survive, and in the concrete scenario (App API down,
one ready ClusterApp) the overall result is the table with exactly that
one row and no error text at all. -/
theorem C4_independent_app_sources :
    (∀ (st : AppsState) (ws an : Option String) (e : String),
        st.apps ws = .error e →
        appResultsOf "App" (st.apps ws) an
            ++ appResultsOf "ClusterApp" st.clusterApps an
          = appResultsOf "ClusterApp" st.clusterApps an)
    ∧ appResultsOf "ClusterApp" appsApiDownState.clusterApps none
        = [⟨"ClusterApp", "kommander-app", "kommander", "Ready"⟩]
    ∧ getAppDeployments appsApiDownState none none
        = "## Kommander Applications\n\n" ++ appsHeader ++ "\n"
          ++ String.intercalate "\n"
            [appRow ⟨"ClusterApp", "kommander-app", "kommander", "Ready"⟩]
    ∧ PyStr.containsStr (getAppDeployments appsApiDownState none none) "Error"
        = false := by
  refine ⟨fun st ws an e he => ?_, by decide, rfl, by decide⟩
  rw [he]
  simp [appResultsOf]

theorem C4_independent_app_sources_witness :
    appResultsOf "App" (appsApiDownState.apps none) none
        ++ appResultsOf "ClusterApp" appsApiDownState.clusterApps none
      = appResultsOf "ClusterApp" appsApiDownState.clusterApps none :=
  C4_independent_app_sources.1 appsApiDownState none none "ApiUnavailable" rfl

theorem gatekeeper_engine_tag (st : GateState) (ns : Option String) :
    ∀ v ∈ checkGatekeeperViolations st ns, v.engine = "Gatekeeper" := by
  intro v hv
  unfold checkGatekeeperViolations at hv
  cases hts : st.templates with
  | error e => rw [hts] at hv; simp at hv
  | ok ts =>
    rw [hts] at hv
    obtain ⟨t, _, hv⟩ := List.mem_flatMap.1 hv
    unfold templateViolations at hv
    cases hcs : st.constraintsOf (constraintKindOf t) with
    | error e => rw [hcs] at hv; simp at hv
    | ok cs =>
      rw [hcs] at hv
      obtain ⟨c, _, hv⟩ := List.mem_flatMap.1 hv
      unfold constraintViolations at hv
      by_cases htv : c.totalViolations > 0
      · rw [if_pos htv] at hv
        obtain ⟨entry, _, hve⟩ := List.mem_map.1 hv
        rw [← hve]
        rfl
      · rw [if_neg htv] at hv; simp at hv

/-- The value carried by either outcome of a Kyverno scan: `except
Exception: pass` keeps the violations accumulated before the abort. -/
def exceptListVal (x : Except (List Violation) (List Violation)) :
    List Violation :=
  match x with
  | .ok a => a
  | .error a => a

theorem scanResults_mem :
    ∀ (rs : List PolicyResult) (acc : List Violation) (v : Violation),
      v ∈ exceptListVal (scanResults acc rs) →
      v ∈ acc ∨ ∃ r rr, v = kyvernoViolationOf r rr := by
  intro rs
  induction rs with
  | nil => intro acc v hv; left; exact hv
  | cons r rest ih =>
    intro acc v hv
    simp only [scanResults] at hv
    by_cases hf : (r.result == some "fail") = true
    · rw [if_pos hf] at hv
      cases hres : r.resources with
      | none =>
        rw [hres] at hv
        rcases ih _ v hv with h | h
        · rcases List.mem_append.1 h with h | h
          · left; exact h
          · right; exact ⟨r, ⟨none, none⟩, by simpa using h⟩
        · right; exact h
      | some l =>
        cases l with
        | nil => rw [hres] at hv; left; exact hv
        | cons rr l2 =>
          rw [hres] at hv
          rcases ih _ v hv with h | h
          · rcases List.mem_append.1 h with h | h
            · left; exact h
            · right; exact ⟨r, rr, by simpa using h⟩
          · right; exact h
    · rw [if_neg hf] at hv
      exact ih acc v hv

theorem scanReports_mem :
    ∀ (reps : List PolicyReport) (acc : List Violation) (v : Violation),
      v ∈ exceptListVal (scanReports acc reps) →
      v ∈ acc ∨ ∃ r rr, v = kyvernoViolationOf r rr := by
  intro reps
  induction reps with
  | nil => intro acc v hv; left; exact hv
  | cons rep rest ih =>
    intro acc v hv
    simp only [scanReports] at hv
    cases hres : scanResults acc rep.results with
    | error a =>
      rw [hres] at hv
      exact scanResults_mem rep.results acc v (by rw [hres]; exact hv)
    | ok a =>
      rw [hres] at hv
      rcases ih a v hv with h | h
      · exact scanResults_mem rep.results acc v (by rw [hres]; exact h)
      · right; exact h

theorem kyvernoBlock_ok_eq (reps : List PolicyReport) (acc : List Violation) :
    kyvernoBlock (.ok reps) acc = exceptListVal (scanReports acc reps) := by
  have h : kyvernoBlock (.ok reps) acc
      = match scanReports acc reps with
        | .error a => a
        | .ok a => a := rfl
  rw [h]
  cases scanReports acc reps <;> rfl

theorem kyvernoBlock_mem (fetch : Except String (List PolicyReport))
    (acc : List Violation) (v : Violation) (hv : v ∈ kyvernoBlock fetch acc) :
    v ∈ acc ∨ ∃ r rr, v = kyvernoViolationOf r rr := by
  cases fetch with
  | error e => left; exact hv
  | ok reps =>
    rw [kyvernoBlock_ok_eq] at hv
    exact scanReports_mem reps acc v hv

theorem kyverno_engine_tag (st : KyvernoState) (ns : Option String) :
    ∀ v ∈ checkKyvernoViolations st ns, v.engine = "Kyverno" := by
  intro v hv
  unfold checkKyvernoViolations at hv
  rcases kyvernoBlock_mem _ _ v hv with h | h
  · rcases kyvernoBlock_mem _ _ v h with h2 | h2
    · simp at h2
    · obtain ⟨r, rr, rfl⟩ := h2; rfl
  · obtain ⟨r, rr, rfl⟩ := h; rfl

/-- Sample Gatekeeper violation entries and constraint carrying two
violations. -/
def gkEntry1 : GkViolationEntry :=
  { ns := some "default", kind := some "Pod", name := some "p1",
    message := some "missing label" }

def gkEntry2 : GkViolationEntry :=
  { ns := some "kube-system", kind := some "Deployment", name := some "d1",
    message := some "missing label" }

def sampleConstraint : Constraint :=
  { name := "require-labels", totalViolations := 2,
    violations := [gkEntry1, gkEntry2] }

/-- Sample Gatekeeper state with one template whose constraint carries
two violations. -/
def sampleGateState : GateState :=
  { templates := .ok ["unique-labels"],
    constraintsOf := fun k =>
      if k == "UniqueLabels" then .ok [sampleConstraint]
      else .error "NotFound" }

/-- Sample Kyverno state with both report APIs unavailable (zero
violations). -/
def emptyKyvernoState : KyvernoState :=
  { clusterReports := .error "ApiUnavailable",
    nsReports := fun _ => .error "ApiUnavailable" }

/-- C5: `check_policy_violations` with engine `"both"` returns the
Gatekeeper violations followed by the Kyverno violations, every
Gatekeeper violation tagged `"Gatekeeper"` and every Kyverno violation
tagged `"Kyverno"`; the engine parameter narrows which checker runs
(`"gatekeeper"` ignores the Kyverno state, `"kyverno"` the Gatekeeper
state); and in the concrete scenario of 2 Gatekeeper violations and 0
Kyverno violations the report shows count 2 with both rows from
Gatekeeper. -/
theorem C5_policy_violation_merge :
    (∀ (st : GateState) (kst : KyvernoState) (ns : Option String),
        selectedViolations st kst ns "both"
          = checkGatekeeperViolations st ns ++ checkKyvernoViolations kst ns)
    ∧ (∀ (st : GateState) (ns : Option String),
        ∀ v ∈ checkGatekeeperViolations st ns, v.engine = "Gatekeeper")
    ∧ (∀ (kst : KyvernoState) (ns : Option String),
        ∀ v ∈ checkKyvernoViolations kst ns, v.engine = "Kyverno")
    ∧ (∀ (st : GateState) (kst kst2 : KyvernoState) (ns : Option String),
        checkPolicyViolations st kst ns "gatekeeper"
          = checkPolicyViolations st kst2 ns "gatekeeper")
    ∧ (∀ (st st2 : GateState) (kst : KyvernoState) (ns : Option String),
        checkPolicyViolations st kst ns "kyverno"
          = checkPolicyViolations st2 kst ns "kyverno")
    ∧ checkGatekeeperViolations sampleGateState none
        = [gkViolationOf "require-labels" gkEntry1,
           gkViolationOf "require-labels" gkEntry2]
    ∧ checkKyvernoViolations emptyKyvernoState none = []
    ∧ (gkViolationOf "require-labels" gkEntry1).engine = "Gatekeeper"
    ∧ (gkViolationOf "require-labels" gkEntry2).engine = "Gatekeeper"
    ∧ checkPolicyViolations sampleGateState emptyKyvernoState none "both"
        = "## Policy Violations\n\n**Engine(s) checked:** both\n**Violations found:** 2\n\n"
          ++ policyHeader ++ "\n"
          ++ String.intercalate "\n"
            [violationRow (gkViolationOf "require-labels" gkEntry1),
             violationRow (gkViolationOf "require-labels" gkEntry2)] := by
  have hng : ¬ ("kyverno" : String) ∈ (["gatekeeper", "both"] : List String) := by
    decide
  have hnk : ¬ ("gatekeeper" : String) ∈ (["kyverno", "both"] : List String) := by
    decide
  refine ⟨fun st kst ns => rfl, gatekeeper_engine_tag, kyverno_engine_tag,
    fun st kst kst2 ns => ?_, fun st st2 kst ns => ?_,
    by decide, rfl, rfl, rfl, rfl⟩
  · simp [checkPolicyViolations, selectedViolations, hnk]
  · simp [checkPolicyViolations, selectedViolations, hng]

theorem C5_policy_violation_merge_witness :
    (gkViolationOf "require-labels" gkEntry1).engine = "Gatekeeper" :=
  C5_policy_violation_merge.2.1 sampleGateState none
    (gkViolationOf "require-labels" gkEntry1) (by decide)

/-- Sample states for the unknown-engine scenario. -/
def noGateState : GateState :=
  { templates := .error "ApiUnavailable",
    constraintsOf := fun _ => .error "ApiUnavailable" }

def noKyvernoState : KyvernoState :=
  { clusterReports := .error "ApiUnavailable",
    nsReports := fun _ => .error "ApiUnavailable" }

/-- C10: for every engine string outside gatekeeper/kyverno/both,
`check_policy_violations` runs neither checker and returns the
success-style no-violations message echoing the engine string, not an
invalid-argument error. -/
theorem C10_unknown_engine_runs_nothing :
    ∀ (st : GateState) (kst : KyvernoState) (ns : Option String)
      (engine : String),
      engine ∉ (["gatekeeper", "kyverno", "both"] : List String) →
      checkPolicyViolations st kst ns engine = noViolationsMsg engine := by
  intro st kst ns engine h
  have h1 : ¬ engine ∈ (["gatekeeper", "both"] : List String) := by
    simp only [List.mem_cons, List.not_mem_nil, or_false] at h ⊢
    tauto
  have h2 : ¬ engine ∈ (["kyverno", "both"] : List String) := by
    simp only [List.mem_cons, List.not_mem_nil, or_false] at h ⊢
    tauto
  simp [checkPolicyViolations, selectedViolations, h1, h2]

theorem C10_unknown_engine_runs_nothing_witness :
    checkPolicyViolations noGateState noKyvernoState none "opa"
      = noViolationsMsg "opa" :=
  C10_unknown_engine_runs_nothing noGateState noKyvernoState none "opa"
    (by decide)
